import Mathlib

/-!
Shallow embedding of the orchestration and health-check core of the
chaos-microservices repository (order-service/index.js,
payment-service/index.js, user-service/index.js), together with theorems
about the claims of the specification.

Conventions of the embedding:
* JavaScript request-body fields are modelled as `Option` values; the
  JavaScript truthiness test `!x` on such a field is modelled by the
  `jsFalsy*` functions (absent, numeric 0 and the empty string are falsy).
* The outcome of one outbound axios call is the inductive `DepResult`:
  a 2xx response is `success`, a non-2xx response with a body is
  `httpError status msg` (axios `error.response`), `connRefused` is
  ECONNREFUSED, `dnsFail` is ENOTFOUND, `aborted` is ECONNABORTED
  (timeout), and `otherFault` is any other transport failure.
* The relational store of the order service is `OrderStore`: a list of
  rows plus the next SERIAL id.  Monetary amounts are exact integers.
* Each route handler becomes a pure function from the store, the parsed
  request and the outcomes of its outbound calls to the HTTP response,
  the successor store, and flags recording which outbound calls were
  issued.
-/

/-- JavaScript truthiness of an optional integer field: `undefined` and `0`
are falsy. -/
def jsFalsyI : Option Int → Bool
  | none => true
  | some n => n == 0

/-- JavaScript truthiness of an optional string field: `undefined` and the
empty string are falsy. -/
def jsFalsyS : Option String → Bool
  | none => true
  | some s => s == ""

/-- JavaScript truthiness of an optional numeric amount field (amounts are
modelled as exact integers; the claims involve only comparisons and sums):
`undefined` and `0` are falsy. -/
def jsFalsyQ : Option Int → Bool
  | none => true
  | some q => q == 0

/-- Result of one guarded outbound axios call, as observed by the catch
blocks of the services. -/
inductive DepResult (α : Type) where
  | success (payload : α)
  | httpError (status : Nat) (errMsg : String)
  | connRefused
  | dnsFail
  | aborted
  | otherFault
  deriving DecidableEq, Repr

/-- Whether the call produced a 2xx response. -/
def DepResult.isSuccess {α : Type} : DepResult α → Bool
  | .success _ => true
  | _ => false

/-- HTTP response of a route handler: status code and the `error` field of
the JSON body (`none` on success bodies). -/
structure HttpResponse where
  code : Nat
  error : Option String
  deriving DecidableEq, Repr

/-- User document returned by GET /users/:id of the user service
(SELECT id, name, email). -/
structure UserData where
  id : Int
  name : String
  email : String
  deriving DecidableEq, Repr

/-- Payment document returned by POST /pay of the payment service and
stored in the payment_details column of an order. -/
structure PaymentData where
  transactionId : String
  amount : Int
  deriving DecidableEq, Repr

/-- Order lifecycle status values ever written by the order service:
rows are inserted with the column default pending and updated to paid. -/
inductive OrderStatus where
  | pending
  | paid
  deriving DecidableEq, Repr

/-- One row of the orders table. -/
structure OrderRow where
  id : Nat
  user_id : Int
  user_data : UserData
  product : String
  amount : Int
  status : OrderStatus
  payment_details : Option PaymentData
  paid_at : Option Nat
  deriving DecidableEq, Repr

/-- The orders table plus the state of its SERIAL id sequence. -/
structure OrderStore where
  rows : List OrderRow
  nextId : Nat
  deriving DecidableEq, Repr

/-- SELECT * FROM orders WHERE id = $1 (ids are unique). -/
def OrderStore.lookup (st : OrderStore) (oid : Nat) : Option OrderRow :=
  st.rows.find? (fun r => r.id == oid)

/-- Body of POST /orders. -/
structure CreateReq where
  userId : Option Int
  product : Option String
  amount : Option Int
  deriving DecidableEq, Repr

/-- Outcome of the POST /orders handler: response, successor store, and
whether the outbound user-service call was issued. -/
structure CreateResult where
  resp : HttpResponse
  store : OrderStore
  userCallMade : Bool
  deriving DecidableEq, Repr

/-- Catch block of POST /orders: a 404 from the user service names the
requested user id, ECONNREFUSED/ENOTFOUND give 503, ECONNABORTED gives
504, and anything else falls through to the generic 500. -/
def classifyUserError (uid : Int) : DepResult UserData → HttpResponse
  | .httpError 404 _ =>
      ⟨404, some ("User with ID " ++ toString uid ++ " not found")⟩
  | .connRefused => ⟨503, some "User service unavailable"⟩
  | .dnsFail => ⟨503, some "User service unavailable"⟩
  | .aborted => ⟨504, some "User service request timed out"⟩
  | _ => ⟨500, some "Failed to create order"⟩

/-- POST /orders of the order service: validate the body, fetch the user
from the user service, insert a pending order with the user snapshot; any
failure of the user call goes through the catch-block classifier and the
store is untouched. -/
def createOrder (st : OrderStore) (req : CreateReq)
    (userResult : DepResult UserData) : CreateResult :=
  if jsFalsyI req.userId || jsFalsyS req.product || jsFalsyQ req.amount then
    ⟨⟨400, some "Missing required fields: userId, product, and amount are required"⟩,
      st, false⟩
  else
    match userResult with
    | .success u =>
        let row : OrderRow :=
          { id := st.nextId
            user_id := req.userId.getD 0
            user_data := u
            product := req.product.getD ""
            amount := req.amount.getD 0
            status := .pending
            payment_details := none
            paid_at := none }
        ⟨⟨201, none⟩, ⟨st.rows ++ [row], st.nextId + 1⟩, true⟩
    | e => ⟨classifyUserError (req.userId.getD 0) e, st, true⟩

/-- The UPDATE of a successful payment: status paid, payment_details and
paid_at set. -/
def setPaid (r : OrderRow) (pd : PaymentData) (now : Nat) : OrderRow :=
  { r with status := .paid, payment_details := some pd, paid_at := some now }

/-- Outcome of the POST /orders/:id/pay handler: response, successor
store, and whether the outbound payment-service call was issued. -/
structure PayResult where
  resp : HttpResponse
  store : OrderStore
  paymentCallMade : Bool
  deriving DecidableEq, Repr

/-- Catch block of POST /orders/:id/pay: a remote 402 is surfaced with
the upstream error message, ECONNREFUSED/ENOTFOUND give 503, ECONNABORTED
gives 504, and anything else falls through to the generic 500. -/
def classifyPaymentError : DepResult PaymentData → HttpResponse
  | .httpError 402 msg => ⟨402, some ("Payment failed: " ++ msg)⟩
  | .connRefused => ⟨503, some "Payment service unavailable"⟩
  | .dnsFail => ⟨503, some "Payment service unavailable"⟩
  | .aborted => ⟨504, some "Payment service request timed out"⟩
  | _ => ⟨500, some "Failed to process payment"⟩

/-- POST /orders/:id/pay of the order service: look the order up (404 if
absent), reject an already paid order (400) before any outbound call,
post to the payment service, and on success update the row; any failure
of the payment call goes through `classifyPaymentError` and the store is
untouched. -/
def payOrder (st : OrderStore) (oid : Nat)
    (payRes : DepResult PaymentData) (now : Nat) : PayResult :=
  match st.lookup oid with
  | none => ⟨⟨404, some "Order not found"⟩, st, false⟩
  | some o =>
    if o.status == .paid then
      ⟨⟨400, some "Order already paid"⟩, st, false⟩
    else
      match payRes with
      | .success pd =>
          ⟨⟨200, none⟩,
            ⟨st.rows.map (fun r => if r.id == oid then setPaid r pd now else r),
              st.nextId⟩, true⟩
      | e => ⟨classifyPaymentError e, st, true⟩

/-- Outcome of the DELETE /orders/:id handler: response, successor store,
and whether the compensating refund call was issued. -/
structure CancelResult where
  resp : HttpResponse
  store : OrderStore
  refundCallMade : Bool
  deriving DecidableEq, Repr

/-- DELETE /orders/:id of the order service: look the order up (404 if
absent); when the order is paid and carries payment details, issue the
compensating refund call whose outcome is swallowed inside its own
try/catch (only logged); then delete the row and answer 200 in every
case. -/
def deleteOrder (st : OrderStore) (oid : Nat)
    (_refundRes : DepResult Unit) : CancelResult :=
  match st.lookup oid with
  | none => ⟨⟨404, some "Order not found"⟩, st, false⟩
  | some o =>
    let callMade := o.status == .paid && o.payment_details.isSome
    ⟨⟨200, none⟩, ⟨st.rows.filter (fun r => r.id != oid), st.nextId⟩, callMade⟩

/-- One invocation of a mutating public-API operation of the order
service, together with the outcome of the outbound call it performs. -/
inductive OrderOp where
  | create (req : CreateReq) (userResult : DepResult UserData)
  | pay (oid : Nat) (payRes : DepResult PaymentData) (now : Nat)
  | cancel (oid : Nat) (refundRes : DepResult Unit)

/-- Effect of one public-API operation on the orders store. -/
def applyOp (st : OrderStore) : OrderOp → OrderStore
  | .create req ur => (createOrder st req ur).store
  | .pay oid pr now => (payOrder st oid pr now).store
  | .cancel oid rr => (deleteOrder st oid rr).store

/-- Observable status of an order id: the status column of its row, or
`none` when no row with this id exists. -/
def obsStatus (st : OrderStore) (oid : Nat) : Option OrderStatus :=
  (st.lookup oid).map (fun r => r.status)

/-- An order id counts as cancelled when it was allocated by the SERIAL
sequence but its row is gone (DELETE /orders/:id removes the row). -/
def CancelledId (st : OrderStore) (oid : Nat) : Prop :=
  oid < st.nextId ∧ obsStatus st oid = none

/-- Store of the order service before any request: empty table, SERIAL
sequence at 1. -/
def emptyOrderStore : OrderStore := ⟨[], 1⟩

/-- Well-formedness of a reachable orders store: ids are below the SERIAL
counter and unique, pending rows carry no payment data, paid rows carry
payment details and a paid timestamp. -/
def Wf (st : OrderStore) : Prop :=
  (∀ r ∈ st.rows, r.id < st.nextId) ∧
  st.rows.Pairwise (fun a b => a.id ≠ b.id) ∧
  (∀ r ∈ st.rows, r.status = .pending → r.payment_details = none ∧ r.paid_at = none) ∧
  (∀ r ∈ st.rows, r.status = .paid → r.payment_details.isSome ∧ r.paid_at.isSome)

/-- Catch block of GET /users/:id/orders: only ECONNREFUSED is mapped to
503; every other failure (including ECONNABORTED and ENOTFOUND) falls
through to the generic 500. -/
def classifyUserOrdersError : DepResult String → HttpResponse
  | .connRefused => ⟨503, some "Order service unavailable"⟩
  | _ => ⟨500, some "Internal server error"⟩

/-- GET /users/:id/orders of the user service: 404 when the user row is
absent; otherwise fetch the orders list from the order service and log
the access in user_activity (a failing log insert also lands in the
catch and yields 500); a failing orders call goes through
`classifyUserOrdersError`. -/
def getUserOrders (userFound : Bool) (ordersRes : DepResult String)
    (activityLogOk : Bool) : HttpResponse :=
  if !userFound then ⟨404, some "User not found"⟩
  else
    match ordersRes with
    | .success _ =>
        if activityLogOk then ⟨200, none⟩
        else ⟨500, some "Internal server error"⟩
    | e => classifyUserOrdersError e

/-- One stored transaction of the payment service. -/
structure Txn where
  orderId : Int
  amount : Int
  transactionId : String
  status : String
  deriving DecidableEq, Repr

/-- One stored refund of the payment service. -/
structure RefundRow where
  refundId : String
  originalTransactionId : String
  amount : Int
  reason : String
  status : String
  deriving DecidableEq, Repr

/-- In-memory state of the payment service: the transactions and refunds
arrays. -/
structure PayState where
  transactions : List Txn
  refunds : List RefundRow
  deriving DecidableEq, Repr

/-- Body of POST /pay. -/
structure PayReq where
  orderId : Option Int
  amount : Option Int
  userId : Option Int
  deriving DecidableEq, Repr

/-- Outcome of the POST /pay handler: response, successor state, and
whether the best-effort user-info call was issued. -/
structure PayEndpointResult where
  resp : HttpResponse
  state : PayState
  userCallMade : Bool
  deriving DecidableEq, Repr

/-- POST /pay of the payment service: reject falsy orderId/amount (400),
reject a non-positive amount (400), optionally fetch best-effort user
info when userId is truthy, simulate a random decline (402), otherwise
append the transaction and answer 200.  The decline draw and the
generated transaction id are inputs of the embedding. -/
def payEndpoint (ps : PayState) (req : PayReq) (shouldFail : Bool)
    (txnId : String) : PayEndpointResult :=
  if jsFalsyI req.orderId || jsFalsyQ req.amount then
    ⟨⟨400, some "Missing required fields: orderId and amount are required"⟩,
      ps, false⟩
  else
    let a := req.amount.getD 0
    if a ≤ 0 then
      ⟨⟨400, some "Invalid amount: must be a positive number"⟩, ps, false⟩
    else
      let userCall := !(jsFalsyI req.userId)
      if shouldFail then
        ⟨⟨402, some "Payment failed: Insufficient funds"⟩, ps, userCall⟩
      else
        ⟨⟨200, none⟩,
          ⟨ps.transactions ++ [⟨req.orderId.getD 0, a, txnId, "paid"⟩],
            ps.refunds⟩, userCall⟩

/-- Body of POST /refund. -/
structure RefundReq where
  transactionId : Option String
  amount : Option Int
  reason : Option String
  deriving DecidableEq, Repr

/-- Outcome of the POST /refund handler. -/
structure RefundResult where
  resp : HttpResponse
  state : PayState
  deriving DecidableEq, Repr

/-- POST /refund of the payment service: reject falsy
transactionId/amount (400); 404 when no transaction with this id exists;
reject with 400 when the refund amount exceeds the ORIGINAL transaction
amount; otherwise append the refund and answer 200.  The generated refund
id is an input of the embedding. -/
def refundEndpoint (ps : PayState) (req : RefundReq)
    (refundId : String) : RefundResult :=
  if jsFalsyS req.transactionId || jsFalsyQ req.amount then
    ⟨⟨400, some "Missing required fields: transactionId and amount are required"⟩, ps⟩
  else
    let tid := req.transactionId.getD ""
    match ps.transactions.find? (fun t => t.transactionId == tid) with
    | none => ⟨⟨404, some "Transaction not found"⟩, ps⟩
    | some t =>
      let ra := req.amount.getD 0
      if t.amount < ra then
        ⟨⟨400, some "Refund amount cannot exceed original transaction amount"⟩, ps⟩
      else
        ⟨⟨200, none⟩,
          ⟨ps.transactions,
            ps.refunds ++ [⟨refundId, tid, ra, req.reason.getD "order_cancellation", "processed"⟩]⟩⟩

/-- Sum of the amounts of all refunds recorded against a transaction id,
as computed by GET /transactions/:id/status. -/
def totalRefunded (ps : PayState) (tid : String) : Int :=
  ((ps.refunds.filter (fun r => r.originalTransactionId == tid)).map
    (fun r => r.amount)).sum

/-- Net amount reported by GET /transactions/:id/status: transaction
amount minus the total refunded against it (404 when the transaction id
is unknown). -/
def transactionNetAmount (ps : PayState) (tid : String) : Option Int :=
  match ps.transactions.find? (fun t => t.transactionId == tid) with
  | none => none
  | some t => some (t.amount - totalRefunded ps tid)

/-- A settled promise, as delivered by Promise.allSettled. -/
inductive Settled (α : Type) where
  | fulfilled (value : α)
  | rejected (reason : α)
  deriving DecidableEq, Repr

/-- The fulfilled/rejected discriminator read by the health handlers. -/
def Settled.isFulfilled {α : Type} : Settled α → Bool
  | .fulfilled _ => true
  | .rejected _ => false

/-- The `r.value || r.reason` projection used for status_results. -/
def Settled.valueOrReason {α : Type} : Settled α → α
  | .fulfilled v => v
  | .rejected e => e

/-- Per-dependency report object built inside the health fan-out. -/
structure DepReport where
  service : String
  status : String
  deriving DecidableEq, Repr

/-- One mapped promise of the health fan-out:
axios.get(url).then(ok-object).catch(err-object).  The inner catch turns
every failure into a resolved value, so the settled promise is fulfilled
whether or not the dependency check succeeded. -/
def depCheckPromise (name : String) (depOk : Bool) : Settled DepReport :=
  .fulfilled (if depOk then ⟨name, "ok"⟩ else ⟨name, "down"⟩)

/-- Inputs of one GET /health evaluation on the order service: outcome of
the SELECT 1 database probe, of the two dependency readiness checks, of
the COUNT(*) query, and the order count it returns. -/
structure OrderHealthInput where
  dbSelect1Ok : Bool
  userServiceOk : Bool
  paymentServiceOk : Bool
  dbCountOk : Bool
  ordersCount : Nat
  deriving DecidableEq, Repr

/-- Response document of a health endpoint: HTTP code, composite status,
the deps/services map, the status_results array, local entity counters,
and the error field of the failure document. -/
structure HealthBody where
  code : Nat
  status : String
  deps : List (String × String)
  statusResults : List DepReport
  counters : List Nat
  error : Option String
  deriving DecidableEq, Repr

/-- The deps/services map: for each declared dependency key, ok or down
according to whether the corresponding allSettled entry is fulfilled. -/
def statusReport (keys : List String) (results : List (Settled DepReport)) :
    List (String × String) :=
  (keys.zip results).map
    (fun kr => (kr.1, if kr.2.isFulfilled then "ok" else "down"))

/-- Composite verdict: ok when every entry of the deps map is ok,
otherwise partial. -/
def compositeStatus (report : List (String × String)) : String :=
  if (report.map (fun kv => kv.2)).all (fun s => s == "ok") then "ok" else "partial"

/-- GET /health of the order service: probe the database (any throw is
caught and answered with a 500 error document), fan the two dependency
checks out with Promise.allSettled, build the deps map from the
fulfilled/rejected discriminator of each settled entry, count the orders
(a throw here also lands in the catch), and answer 200 with the composite
document. -/
def orderHealth (inp : OrderHealthInput) : HealthBody :=
  if !inp.dbSelect1Ok then
    ⟨500, "error", [], [], [], some "Database connection failed"⟩
  else
    let results := [depCheckPromise "userService" inp.userServiceOk,
                    depCheckPromise "paymentService" inp.paymentServiceOk]
    let report := statusReport ["userService", "paymentService"] results
    if !inp.dbCountOk then
      ⟨500, "error", [], [], [], some "Database connection failed"⟩
    else
      ⟨200, compositeStatus report, report,
        results.map Settled.valueOrReason, [inp.ordersCount], none⟩

/-- GET /health of the payment service: no local store probe; the three
declared dependency checks are fanned out exactly like on the order
service, and the answer is always 200 with the composite document. -/
def paymentHealth (userOk orderOk payOk : Bool)
    (txnCount refundCount : Nat) : HealthBody :=
  let results := [depCheckPromise "userService" userOk,
                  depCheckPromise "paymentService" orderOk,
                  depCheckPromise "orderService" payOk]
  let report := statusReport ["userService", "paymentService", "orderService"] results
  ⟨200, compositeStatus report, report,
    results.map Settled.valueOrReason, [txnCount, refundCount], none⟩

/-- Sample user snapshot used by the concrete witness stores. -/
def sampleUser : UserData := ⟨1, "Alice", "alice@example.com"⟩

/-- A store holding one pending order with id 1. -/
def pendingStore : OrderStore :=
  ⟨[⟨1, 1, sampleUser, "Book", 20, .pending, none, none⟩], 2⟩

/-- The pending row of `pendingStore`. -/
def pendingRow : OrderRow := ⟨1, 1, sampleUser, "Book", 20, .pending, none, none⟩

/-- A store holding one paid order with id 1. -/
def paidStore : OrderStore :=
  ⟨[⟨1, 1, sampleUser, "Book", 20, .paid, some ⟨"txn_1", 20⟩, some 10⟩], 2⟩

/-- The paid row of `paidStore`. -/
def paidRow : OrderRow := ⟨1, 1, sampleUser, "Book", 20, .paid, some ⟨"txn_1", 20⟩, some 10⟩

/-- Payment-service state after one successful POST /pay of amount 100
for order 7 (transaction id txn_1). -/
def onePaymentState : PayState :=
  (payEndpoint ⟨[], []⟩ ⟨some 7, some 100, none⟩ false "txn_1").state

/-- A refund request asking the full original amount of txn_1 back. -/
def fullRefundReq : RefundReq := ⟨some "txn_1", some 100, none⟩

/-- State after the first full refund of txn_1 was accepted. -/
def afterFirstRefund : PayState :=
  (refundEndpoint onePaymentState fullRefundReq "refund_1").state

/-- Result of a second full refund of txn_1, submitted when the remaining
unrefunded amount is already zero. -/
def secondRefund : RefundResult :=
  refundEndpoint afterFirstRefund fullRefundReq "refund_2"

/-! Lemmas about lookups over the three store shapes the handlers
produce: a row appended at the SERIAL id, a row-preserving map, and a
filter removing one id. -/

theorem find?_id_filter_ne (l : List OrderRow) (d oid : Nat) (h : oid ≠ d) :
    (l.filter (fun r => r.id != d)).find? (fun r => r.id == oid) =
      l.find? (fun r => r.id == oid) := by
  induction l with
  | nil => rfl
  | cons x xs ih =>
    rcases eq_or_ne x.id d with hxd | hxd
    · have hdrop : (x.id != d) = false := by simp [hxd]
      have hxo : (x.id == oid) = false := by
        simp only [beq_eq_false_iff_ne, ne_eq, hxd]
        exact fun he => h he.symm
      simp only [List.filter_cons, hdrop, Bool.false_eq_true, if_false,
        List.find?_cons, hxo, ih]
    · have hkeep : (x.id != d) = true := by simp [hxd]
      simp only [List.filter_cons, hkeep, if_true, List.find?_cons]
      cases hxo : (x.id == oid) <;> simp only [ih]

theorem find?_id_filter_self (l : List OrderRow) (d : Nat) :
    (l.filter (fun r => r.id != d)).find? (fun r => r.id == d) = none := by
  rw [List.find?_eq_none]
  intro x hx
  rw [List.mem_filter] at hx
  simpa using hx.2

theorem find?_id_map (l : List OrderRow) (f : OrderRow → OrderRow) (oid : Nat)
    (hf : ∀ r, (f r).id = r.id) :
    (l.map f).find? (fun r => r.id == oid) =
      (l.find? (fun r => r.id == oid)).map f := by
  induction l with
  | nil => rfl
  | cons x xs ih =>
    rw [List.map_cons]
    have hsame : ((f x).id == oid) = (x.id == oid) := by rw [hf]
    cases hxo : (x.id == oid) with
    | true =>
      simp only [List.find?_cons, hsame, hxo]
      rfl
    | false =>
      simp only [List.find?_cons, hsame, hxo, ih]

/-! Shape lemmas: the store a handler returns is the input store, an
append of one fresh pending row, a row-preserving update, or a filter
removing one id. -/

theorem createOrder_store_cases (st : OrderStore) (req : CreateReq)
    (ur : DepResult UserData) :
    (createOrder st req ur).store = st ∨
    ∃ row : OrderRow, row.id = st.nextId ∧ row.status = .pending ∧
      row.payment_details = none ∧ row.paid_at = none ∧
      (createOrder st req ur).store = ⟨st.rows ++ [row], st.nextId + 1⟩ := by
  unfold createOrder
  split
  · left; rfl
  · split
    · right; exact ⟨_, rfl, rfl, rfl, rfl, rfl⟩
    · left; rfl

theorem payOrder_store_cases (st : OrderStore) (oid : Nat)
    (pr : DepResult PaymentData) (now : Nat) :
    (payOrder st oid pr now).store = st ∨
    ∃ pd, (payOrder st oid pr now).store =
      ⟨st.rows.map (fun r => if r.id == oid then setPaid r pd now else r),
        st.nextId⟩ := by
  unfold payOrder
  split
  · left; rfl
  · split
    · left; rfl
    · split
      · right; exact ⟨_, rfl⟩
      · left; rfl

theorem deleteOrder_store_cases (st : OrderStore) (oid : Nat)
    (rr : DepResult Unit) :
    (deleteOrder st oid rr).store = st ∨
    (deleteOrder st oid rr).store =
      ⟨st.rows.filter (fun r => r.id != oid), st.nextId⟩ := by
  unfold deleteOrder
  split
  · left; rfl
  · right; rfl

theorem obsStatus_append (st : OrderStore) (row : OrderRow) (n oid : Nat) :
    obsStatus ⟨st.rows ++ [row], n⟩ oid =
      (obsStatus st oid).or (if row.id == oid then some row.status else none) := by
  unfold obsStatus OrderStore.lookup
  rw [List.find?_append, List.find?_singleton]
  cases h : st.rows.find? (fun r => r.id == oid) with
  | none => cases hr : (row.id == oid) <;> simp
  | some o => cases hr : (row.id == oid) <;> simp

theorem obsStatus_map_pay (st : OrderStore) (oid' : Nat) (pd : PaymentData)
    (now n oid : Nat) :
    obsStatus ⟨st.rows.map
        (fun r => if r.id == oid' then setPaid r pd now else r), n⟩ oid =
      (st.lookup oid).map
        (fun r => if r.id == oid' then OrderStatus.paid else r.status) := by
  unfold obsStatus OrderStore.lookup
  rw [find?_id_map]
  · cases h : st.rows.find? (fun r => r.id == oid) with
    | none => simp
    | some o =>
      by_cases ho : o.id = oid' <;> simp [ho, setPaid]
  · intro r
    by_cases hr : r.id = oid' <;> simp [hr, setPaid]

theorem obsStatus_filter (st : OrderStore) (d n oid : Nat) :
    obsStatus ⟨st.rows.filter (fun r => r.id != d), n⟩ oid =
      if oid = d then none else obsStatus st oid := by
  unfold obsStatus OrderStore.lookup
  by_cases h : oid = d
  · subst h
    rw [find?_id_filter_self]
    simp
  · rw [find?_id_filter_ne _ _ _ h]
    simp [h]

/-! Preservation of the reachable-store invariant. -/

theorem wf_empty : Wf emptyOrderStore := by
  refine ⟨?_, ?_, ?_, ?_⟩ <;> simp [emptyOrderStore]

theorem wf_applyOp (st : OrderStore) (op : OrderOp) (hwf : Wf st) :
    Wf (applyOp st op) := by
  obtain ⟨hid, hpw, hpend, hpaid⟩ := hwf
  rcases op with ⟨req, ur⟩ | ⟨oid', pr, now⟩ | ⟨oid', rr⟩
  · rcases createOrder_store_cases st req ur with hs | ⟨row, hrid, hrstat, hrpd, hrpa, hs⟩
    · simpa only [applyOp, hs] using ⟨hid, hpw, hpend, hpaid⟩
    · simp only [applyOp, hs]
      refine ⟨?_, ?_, ?_, ?_⟩
      · intro r hr
        rcases List.mem_append.mp hr with hr | hr
        · exact Nat.lt_succ_of_lt (hid r hr)
        · rw [List.mem_singleton.mp hr, hrid]
          exact Nat.lt_succ_self _
      · rw [List.pairwise_append]
        refine ⟨hpw, List.pairwise_singleton _ _, ?_⟩
        intro a ha b hb
        rw [List.mem_singleton.mp hb, hrid]
        exact Nat.ne_of_lt (hid a ha)
      · intro r hr hrp
        rcases List.mem_append.mp hr with hr | hr
        · exact hpend r hr hrp
        · rw [List.mem_singleton.mp hr]
          exact ⟨hrpd, hrpa⟩
      · intro r hr hrp
        rcases List.mem_append.mp hr with hr | hr
        · exact hpaid r hr hrp
        · rw [List.mem_singleton.mp hr] at hrp
          rw [hrstat] at hrp
          exact absurd hrp (by simp)
  · rcases payOrder_store_cases st oid' pr now with hs | ⟨pd, hs⟩
    · simpa only [applyOp, hs] using ⟨hid, hpw, hpend, hpaid⟩
    · simp only [applyOp, hs]
      have hfid : ∀ r : OrderRow,
          ((if r.id == oid' then setPaid r pd now else r).id) = r.id := by
        intro r
        by_cases h : r.id = oid' <;> simp [h, setPaid]
      refine ⟨?_, ?_, ?_, ?_⟩
      · intro r hr
        rcases List.mem_map.mp hr with ⟨a, ha, hfa⟩
        rw [← hfa, hfid]
        exact hid a ha
      · refine List.Pairwise.map _ ?_ hpw
        intro a b hab
        rw [hfid, hfid]
        exact hab
      · intro r hr hrp
        rcases List.mem_map.mp hr with ⟨a, ha, hfa⟩
        by_cases hao : a.id = oid'
        · exfalso
          rw [← hfa] at hrp
          simp [hao, setPaid] at hrp
        · rw [← hfa]
          simp only [hao, beq_iff_eq, if_false]
          refine hpend a ha ?_
          rw [← hfa] at hrp
          simpa [hao] using hrp
      · intro r hr hrp
        rcases List.mem_map.mp hr with ⟨a, ha, hfa⟩
        by_cases hao : a.id = oid'
        · rw [← hfa]
          simp [hao, setPaid]
        · rw [← hfa]
          simp only [hao, beq_iff_eq, if_false]
          refine hpaid a ha ?_
          rw [← hfa] at hrp
          simpa [hao] using hrp
  · rcases deleteOrder_store_cases st oid' rr with hs | hs
    · simpa only [applyOp, hs] using ⟨hid, hpw, hpend, hpaid⟩
    · simp only [applyOp, hs]
      refine ⟨?_, ?_, ?_, ?_⟩
      · intro r hr
        exact hid r (List.mem_of_mem_filter hr)
      · exact List.Pairwise.sublist (List.filter_sublist _) hpw
      · intro r hr
        exact hpend r (List.mem_of_mem_filter hr)
      · intro r hr
        exact hpaid r (List.mem_of_mem_filter hr)

/-- Every store reachable from the empty store by a sequence of
public-API operations satisfies the invariant. -/
theorem wf_reachable (ops : List OrderOp) :
    Wf (ops.foldl applyOp emptyOrderStore) := by
  induction ops using List.reverseRecOn with
  | nil => exact wf_empty
  | append_singleton ops op ih =>
    rw [List.foldl_append]
    exact wf_applyOp _ op ih

/-! Outcome lemmas for the individual handler branches. -/

theorem createOrder_error (st : OrderStore) (req : CreateReq)
    (ur : DepResult UserData)
    (hv : (jsFalsyI req.userId || jsFalsyS req.product || jsFalsyQ req.amount) = false)
    (hs : ur.isSuccess = false) :
    createOrder st req ur =
      ⟨classifyUserError (req.userId.getD 0) ur, st, true⟩ := by
  unfold createOrder
  rw [hv]
  cases ur with
  | success u => simp [DepResult.isSuccess] at hs
  | httpError s m => rfl
  | connRefused => rfl
  | dnsFail => rfl
  | aborted => rfl
  | otherFault => rfl

theorem createOrder_success (st : OrderStore) (req : CreateReq) (u : UserData)
    (hv : (jsFalsyI req.userId || jsFalsyS req.product || jsFalsyQ req.amount) = false) :
    createOrder st req (.success u) =
      ⟨⟨201, none⟩,
        ⟨st.rows ++ [⟨st.nextId, req.userId.getD 0, u, req.product.getD "",
          req.amount.getD 0, .pending, none, none⟩], st.nextId + 1⟩, true⟩ := by
  unfold createOrder
  rw [hv]
  rfl

theorem payOrder_error (st : OrderStore) (oid : Nat) (o : OrderRow)
    (payRes : DepResult PaymentData) (now : Nat)
    (hf : st.lookup oid = some o) (hp : o.status ≠ .paid)
    (hs : payRes.isSuccess = false) :
    payOrder st oid payRes now = ⟨classifyPaymentError payRes, st, true⟩ := by
  have hnp : (o.status == OrderStatus.paid) = false := by simpa using hp
  unfold payOrder
  simp only [hf, hnp, Bool.false_eq_true, if_false]
  cases payRes with
    | success pd => simp [DepResult.isSuccess] at hs
    | httpError s m => rfl
    | connRefused => rfl
    | dnsFail => rfl
    | aborted => rfl
    | otherFault => rfl

theorem payOrder_already_paid (st : OrderStore) (oid : Nat) (o : OrderRow)
    (payRes : DepResult PaymentData) (now : Nat)
    (hf : st.lookup oid = some o) (hp : o.status = .paid) :
    payOrder st oid payRes now = ⟨⟨400, some "Order already paid"⟩, st, false⟩ := by
  have hb : (o.status == OrderStatus.paid) = true := by simp [hp]
  unfold payOrder
  simp only [hf, hb, if_true]

theorem deleteOrder_found (st : OrderStore) (oid : Nat) (o : OrderRow)
    (rr : DepResult Unit) (hf : st.lookup oid = some o) :
    deleteOrder st oid rr =
      ⟨⟨200, none⟩, ⟨st.rows.filter (fun r => r.id != oid), st.nextId⟩,
        o.status == .paid && o.payment_details.isSome⟩ := by
  unfold deleteOrder
  simp only [hf]

/-- The concrete pending store is a reachable well-formed store. -/
theorem wf_pendingStore : Wf pendingStore := by
  refine ⟨?_, ?_, ?_, ?_⟩
  · decide
  · exact List.pairwise_singleton _ _
  · decide
  · decide

/-- The concrete paid store is a reachable well-formed store. -/
theorem wf_paidStore : Wf paidStore := by
  refine ⟨?_, ?_, ?_, ?_⟩
  · decide
  · exact List.pairwise_singleton _ _
  · decide
  · decide

/-! Claim theorems. -/

/-- C1: the specification claims that with the local store check passing,
one dependency check failing and one succeeding, GET /health reports the
composite status partial/degraded and marks the failing dependency down
in the deps map.  The code disagrees: the inner catch of each dependency
check resolves every failure, so every Promise.allSettled entry is
fulfilled and the deps map and composite verdict are computed from the
always-true fulfilled flag.  With the user-service check failing and the
payment-service check passing, the order service answers 200 with
composite status ok and both deps ok — while status_results in the very
same document reports the user service as down — and the payment service
behaves identically; the composite status can never be partial. -/
theorem health_deps_map_never_down :
    (orderHealth ⟨true, false, true, true, 5⟩).code = 200 ∧
    (orderHealth ⟨true, false, true, true, 5⟩).status = "ok" ∧
    (orderHealth ⟨true, false, true, true, 5⟩).deps =
      [("userService", "ok"), ("paymentService", "ok")] ∧
    (orderHealth ⟨true, false, true, true, 5⟩).statusResults =
      [⟨"userService", "down"⟩, ⟨"paymentService", "ok"⟩] ∧
    (paymentHealth false true true 0 0).status = "ok" ∧
    (paymentHealth false true true 0 0).deps =
      [("userService", "ok"), ("paymentService", "ok"), ("orderService", "ok")] ∧
    ∀ inp : OrderHealthInput,
      (orderHealth inp).status = "ok" ∨ (orderHealth inp).status = "error" := by
  refine ⟨by decide, by decide, by decide, by decide, by decide, by decide, ?_⟩
  intro inp
  rcases inp with ⟨db1, u, p, dbc, n⟩
  cases db1 <;> cases dbc <;>
    simp [orderHealth, statusReport, compositeStatus, depCheckPromise,
      Settled.isFulfilled]

/-- C2: over every store and every public-API operation (create, pay,
cancel), the observable status of an order id only ever steps
pending→pending, pending→paid, pending→gone, paid→paid, paid→gone
(deletion is the cancelled terminal state: DELETE removes the row), a
fresh id appears only as pending, and an id that was allocated and then
cancelled stays cancelled forever. -/
theorem order_status_transition_invariant (st : OrderStore) (op : OrderOp) (oid : Nat) :
    (obsStatus st oid = some .pending →
        obsStatus (applyOp st op) oid = some .pending ∨
        obsStatus (applyOp st op) oid = some .paid ∨
        obsStatus (applyOp st op) oid = none) ∧
    (obsStatus st oid = some .paid →
        obsStatus (applyOp st op) oid = some .paid ∨
        obsStatus (applyOp st op) oid = none) ∧
    (obsStatus st oid = none →
        obsStatus (applyOp st op) oid = none ∨
        obsStatus (applyOp st op) oid = some .pending) ∧
    (CancelledId st oid → CancelledId (applyOp st op) oid) := by
  rcases op with ⟨req, ur⟩ | ⟨oid', pr, now⟩ | ⟨oid', rr⟩
  · rcases createOrder_store_cases st req ur with hs | ⟨row, hid, hstat, _, _, hs⟩
    · simp only [applyOp, hs]
      exact ⟨fun h => .inl h, fun h => .inl h, fun h => .inl h, fun h => h⟩
    · simp only [applyOp, hs]
      refine ⟨?_, ?_, ?_, ?_⟩
      · intro h
        left
        rw [obsStatus_append, h]
        rfl
      · intro h
        left
        rw [obsStatus_append, h]
        rfl
      · intro h
        rw [obsStatus_append, h, hstat]
        cases hio : (row.id == oid)
        · left; rfl
        · right; rfl
      · intro h
        have hne : (row.id == oid) = false := by
          rw [hid]
          simp only [beq_eq_false_iff_ne, ne_eq]
          exact fun he => absurd (he ▸ h.1) (lt_irrefl _)
        constructor
        · exact Nat.lt_succ_of_lt h.1
        · rw [obsStatus_append, h.2, hne]
          rfl
  · rcases payOrder_store_cases st oid' pr now with hs | ⟨pd, hs⟩
    · simp only [applyOp, hs]
      exact ⟨fun h => .inl h, fun h => .inl h, fun h => .inl h, fun h => h⟩
    · simp only [applyOp, hs]
      refine ⟨?_, ?_, ?_, ?_⟩
      · intro h
        rw [obsStatus_map_pay]
        unfold obsStatus at h
        cases hl : st.lookup oid with
        | none => rw [hl] at h; exact absurd h (by simp)
        | some o =>
          rw [hl] at h
          have ho : o.status = .pending := by simpa using h
          by_cases hp : o.id = oid'
          · right; left; simp [hp]
          · left; simp [hp, ho]
      · intro h
        rw [obsStatus_map_pay]
        unfold obsStatus at h
        cases hl : st.lookup oid with
        | none => rw [hl] at h; exact absurd h (by simp)
        | some o =>
          rw [hl] at h
          have ho : o.status = .paid := by simpa using h
          left
          by_cases hp : o.id = oid' <;> simp [hp, ho]
      · intro h
        left
        rw [obsStatus_map_pay]
        unfold obsStatus at h
        cases hl : st.lookup oid with
        | none => simp
        | some o => rw [hl] at h; exact absurd h (by simp)
      · intro h
        refine ⟨h.1, ?_⟩
        rw [obsStatus_map_pay]
        have h2 := h.2
        unfold obsStatus at h2
        cases hl : st.lookup oid with
        | none => simp
        | some o => rw [hl] at h2; exact absurd h2 (by simp)
  · rcases deleteOrder_store_cases st oid' rr with hs | hs
    · simp only [applyOp, hs]
      exact ⟨fun h => .inl h, fun h => .inl h, fun h => .inl h, fun h => h⟩
    · simp only [applyOp, hs]
      refine ⟨?_, ?_, ?_, ?_⟩
      · intro h
        rw [obsStatus_filter]
        by_cases he : oid = oid'
        · right; right; simp [he]
        · left; simp [he, h]
      · intro h
        rw [obsStatus_filter]
        by_cases he : oid = oid'
        · right; simp [he]
        · left; simp [he, h]
      · intro h
        left
        rw [obsStatus_filter]
        by_cases he : oid = oid' <;> simp [he, h]
      · intro h
        refine ⟨h.1, ?_⟩
        rw [obsStatus_filter]
        by_cases he : oid = oid' <;> simp [he, h.2]

/-- Witness for C2: in the concrete one-pending-order store, paying
order 1 successfully steps its status to one of the allowed successors
of pending. -/
theorem order_status_transition_invariant_witness :
    obsStatus (applyOp pendingStore (.pay 1 (.success ⟨"txn_9", 20⟩) 3)) 1 =
      some .pending ∨
    obsStatus (applyOp pendingStore (.pay 1 (.success ⟨"txn_9", 20⟩) 3)) 1 =
      some .paid ∨
    obsStatus (applyOp pendingStore (.pay 1 (.success ⟨"txn_9", 20⟩) 3)) 1 =
      none :=
  (order_status_transition_invariant pendingStore
    (.pay 1 (.success ⟨"txn_9", 20⟩) 3) 1).1 (by decide)

/-- C3: for an existing pending order, every classified failure of the
outbound payment call (declined, unavailable, timeout or other) leaves
the store completely untouched — the order row is still the same pending
row with no payment_details and no paid_at, so the client can retry —
and the response is exactly the translated error of the catch-block
classifier: 402 with the upstream message for a remote 402, 503 for
ECONNREFUSED and ENOTFOUND, 504 for ECONNABORTED and 500 otherwise. -/
theorem pay_error_leaves_order_retryable (st : OrderStore) (oid : Nat)
    (o : OrderRow) (payRes : DepResult PaymentData) (now : Nat) (hwf : Wf st)
    (hf : st.lookup oid = some o) (hp : o.status = .pending)
    (hs : payRes.isSuccess = false) :
    (payOrder st oid payRes now).store = st ∧
    (payOrder st oid payRes now).resp = classifyPaymentError payRes ∧
    (payOrder st oid payRes now).store.lookup oid = some o ∧
    o.status = .pending ∧ o.payment_details = none ∧ o.paid_at = none ∧
    classifyPaymentError .aborted =
      ⟨504, some "Payment service request timed out"⟩ ∧
    classifyPaymentError .connRefused =
      ⟨503, some "Payment service unavailable"⟩ ∧
    classifyPaymentError .dnsFail =
      ⟨503, some "Payment service unavailable"⟩ ∧
    (∀ m, classifyPaymentError (.httpError 402 m) =
      ⟨402, some ("Payment failed: " ++ m)⟩) ∧
    classifyPaymentError .otherFault =
      ⟨500, some "Failed to process payment"⟩ := by
  have hnotpaid : o.status ≠ .paid := by rw [hp]; simp
  have hgo := payOrder_error st oid o payRes now hf hnotpaid hs
  have hmem : o ∈ st.rows := List.mem_of_find?_eq_some hf
  have hdet := hwf.2.2.1 o hmem hp
  rw [hgo]
  exact ⟨rfl, rfl, hf, hp, hdet.1, hdet.2, rfl, rfl, rfl, fun m => rfl, rfl⟩

/-- Witness for C3: a timed-out payment call against the concrete
pending store leaves the store unchanged. -/
theorem pay_error_leaves_order_retryable_witness :
    (payOrder pendingStore 1 .aborted 5).store = pendingStore :=
  (pay_error_leaves_order_retryable pendingStore 1 pendingRow .aborted 5
    wf_pendingStore (by decide) (by decide) (by decide)).1

/-- C4 counterexample: after one transaction of amount 100 (txn_1), two
successive refunds of 100 are both accepted with 200 — the second one at
a moment when the remaining unrefunded amount is 0 — so the total
refunded reaches 200, exceeding the transaction amount, and the status
endpoint reports a negative net amount. -/
theorem second_full_refund_accepted :
    (refundEndpoint onePaymentState fullRefundReq "refund_1").resp.code = 200 ∧
    secondRefund.resp.code = 200 ∧
    onePaymentState.transactions.map (fun t => t.amount) = [100] ∧
    totalRefunded afterFirstRefund "txn_1" = 100 ∧
    totalRefunded secondRefund.state "txn_1" = 200 ∧
    transactionNetAmount secondRefund.state "txn_1" = some (-100) := by
  decide

/-- C4 amended: POST /refund validates each refund only against the
original transaction amount, not the remaining unrefunded amount: an
accepted refund never exceeds the original amount, a refund exceeding
the original amount is rejected with 400 and leaves the state unchanged,
and an accepted refund appends exactly one refund row — but the
cumulative total of several accepted refunds may exceed the transaction
amount. -/
theorem refund_checked_against_original_amount (ps : PayState)
    (req : RefundReq) (rid : String) (t : Txn)
    (hv : (jsFalsyS req.transactionId || jsFalsyQ req.amount) = false)
    (hf : ps.transactions.find?
      (fun x => x.transactionId == req.transactionId.getD "") = some t) :
    ((refundEndpoint ps req rid).resp.code = 200 →
      req.amount.getD 0 ≤ t.amount) ∧
    (t.amount < req.amount.getD 0 →
      (refundEndpoint ps req rid).resp =
        ⟨400, some "Refund amount cannot exceed original transaction amount"⟩ ∧
      (refundEndpoint ps req rid).state = ps) ∧
    ((refundEndpoint ps req rid).resp.code = 200 →
      (refundEndpoint ps req rid).state.refunds =
        ps.refunds ++ [⟨rid, req.transactionId.getD "", req.amount.getD 0,
          req.reason.getD "order_cancellation", "processed"⟩]) := by
  unfold refundEndpoint
  simp only [hv, Bool.false_eq_true, if_false, hf]
  by_cases hlt : t.amount < req.amount.getD 0
  · rw [if_pos hlt]
    exact ⟨fun h => absurd h (by simp), fun _ => ⟨rfl, rfl⟩,
      fun h => absurd h (by simp)⟩
  · rw [if_neg hlt]
    exact ⟨fun _ => le_of_not_lt hlt, fun h => absurd h hlt, fun _ => rfl⟩

/-- Witness for C4 amended: the first full refund of txn_1 is accepted
and its amount does not exceed the original transaction amount. -/
theorem refund_checked_against_original_amount_witness :
    fullRefundReq.amount.getD 0 ≤ (100 : Int) :=
  (refund_checked_against_original_amount onePaymentState fullRefundReq
    "refund_1" ⟨7, 100, "txn_1", "paid"⟩ (by decide) (by decide)).1 (by decide)

/-- C5: a second POST /orders/:id/pay against an already paid order is
rejected with 400 and body "Order already paid": the store — hence the
paid timestamp and payment details of the order — is unchanged and the
outbound payment call is never issued. -/
theorem double_pay_rejected (st : OrderStore) (oid : Nat) (o : OrderRow)
    (payRes : DepResult PaymentData) (now : Nat)
    (hf : st.lookup oid = some o) (hp : o.status = .paid) :
    (payOrder st oid payRes now).resp = ⟨400, some "Order already paid"⟩ ∧
    (payOrder st oid payRes now).store = st ∧
    (payOrder st oid payRes now).store.lookup oid = some o ∧
    (payOrder st oid payRes now).paymentCallMade = false := by
  rw [payOrder_already_paid st oid o payRes now hf hp]
  exact ⟨rfl, rfl, hf, rfl⟩

/-- Witness for C5: re-paying order 1 of the concrete paid store is
rejected with the exact error body. -/
theorem double_pay_rejected_witness :
    (payOrder paidStore 1 (.success ⟨"txn_2", 20⟩) 11).resp =
      ⟨400, some "Order already paid"⟩ :=
  (double_pay_rejected paidStore 1 paidRow (.success ⟨"txn_2", 20⟩) 11
    (by decide) (by decide)).1

/-- C6 counterexample: on the user service, a timed-out (ECONNABORTED)
or DNS-failed (ENOTFOUND) orders call in GET /users/:id/orders is
answered with the generic 500, not with 504 resp. 503 as the claim
states for every service. -/
theorem user_orders_timeout_and_dns_give_500 :
    getUserOrders true .aborted true = ⟨500, some "Internal server error"⟩ ∧
    getUserOrders true .dnsFail true = ⟨500, some "Internal server error"⟩ ∧
    getUserOrders true .connRefused true =
      ⟨503, some "Order service unavailable"⟩ := by
  decide

/-- C6 amended: the order service translates a timed-out required
dependency call to 504 and a connection-refused or DNS failure to 503 on
both POST /orders and POST /orders/:id/pay, while the user service's
composed read endpoint GET /users/:id/orders translates only
connection-refused to 503 and lets timeouts and DNS failures fall
through to the generic 500. -/
theorem dependency_failure_translation (st : OrderStore) (req : CreateReq)
    (oid : Nat) (o : OrderRow) (now : Nat)
    (hv : (jsFalsyI req.userId || jsFalsyS req.product || jsFalsyQ req.amount) = false)
    (hf : st.lookup oid = some o) (hp : o.status ≠ .paid) :
    (createOrder st req .aborted).resp.code = 504 ∧
    (createOrder st req .connRefused).resp.code = 503 ∧
    (createOrder st req .dnsFail).resp.code = 503 ∧
    (payOrder st oid .aborted now).resp.code = 504 ∧
    (payOrder st oid .connRefused now).resp.code = 503 ∧
    (payOrder st oid .dnsFail now).resp.code = 503 ∧
    (∀ logOk, getUserOrders true .connRefused logOk =
      ⟨503, some "Order service unavailable"⟩) ∧
    (∀ logOk, getUserOrders true .aborted logOk =
      ⟨500, some "Internal server error"⟩) ∧
    (∀ logOk, getUserOrders true .dnsFail logOk =
      ⟨500, some "Internal server error"⟩) := by
  refine ⟨?_, ?_, ?_, ?_, ?_, ?_, fun _ => rfl, fun _ => rfl, fun _ => rfl⟩
  · rw [createOrder_error st req .aborted hv rfl]; rfl
  · rw [createOrder_error st req .connRefused hv rfl]; rfl
  · rw [createOrder_error st req .dnsFail hv rfl]; rfl
  · rw [payOrder_error st oid o .aborted now hf hp rfl]; rfl
  · rw [payOrder_error st oid o .connRefused now hf hp rfl]; rfl
  · rw [payOrder_error st oid o .dnsFail now hf hp rfl]; rfl

/-- Witness for C6 amended: a timed-out user call on a concrete valid
POST /orders request yields 504. -/
theorem dependency_failure_translation_witness :
    (createOrder pendingStore ⟨some 1, some "Book", some 20⟩ .aborted).resp.code = 504 :=
  (dependency_failure_translation pendingStore ⟨some 1, some "Book", some 20⟩
    1 pendingRow 5 (by decide) (by decide) (by decide)).1

/-- C7: a POST /orders request for a user the user service answers 404
for is itself answered 404 with a message embedding the user id, and the
store is untouched; more generally every failing user call leaves the
store unchanged while a successful one appends exactly the one pending
order row with the user snapshot — create is all-or-nothing. -/
theorem create_user_not_found_rolls_back (st : OrderStore) (req : CreateReq)
    (uid : Int) (msg : String) (hu : req.userId = some uid)
    (hv : (jsFalsyI req.userId || jsFalsyS req.product || jsFalsyQ req.amount) = false) :
    (createOrder st req (.httpError 404 msg)).resp =
      ⟨404, some ("User with ID " ++ toString uid ++ " not found")⟩ ∧
    (createOrder st req (.httpError 404 msg)).store = st ∧
    (∀ ur : DepResult UserData, ur.isSuccess = false →
      (createOrder st req ur).store = st) ∧
    (∀ u : UserData, (createOrder st req (.success u)).store.rows =
      st.rows ++ [⟨st.nextId, uid, u, req.product.getD "",
        req.amount.getD 0, .pending, none, none⟩]) := by
  refine ⟨?_, ?_, ?_, ?_⟩
  · rw [createOrder_error st req (.httpError 404 msg) hv rfl, hu]; rfl
  · rw [createOrder_error st req (.httpError 404 msg) hv rfl]
  · intro ur hs
    rw [createOrder_error st req ur hv hs]
  · intro u
    rw [createOrder_success st req u hv, hu]
    rfl

/-- Witness for C7: creating an order for user 1 when the user service
answers 404 is itself a 404 embedding the id and writes nothing. -/
theorem create_user_not_found_rolls_back_witness :
    (createOrder emptyOrderStore ⟨some 1, some "Book", some 20⟩
      (.httpError 404 "User not found")).store = emptyOrderStore :=
  (create_user_not_found_rolls_back emptyOrderStore ⟨some 1, some "Book", some 20⟩
    1 "User not found" (by decide) (by decide)).2.1

/-- C8: deleting an existing paid order succeeds with 200 and removes
the row no matter how the compensating refund call ends: the refund call
is issued, its outcome is swallowed, and the whole result of the handler
is independent of that outcome. -/
theorem cancel_paid_ignores_refund_failure (st : OrderStore) (oid : Nat)
    (o : OrderRow) (hwf : Wf st) (hf : st.lookup oid = some o)
    (hp : o.status = .paid) :
    ∀ rr rr' : DepResult Unit,
      (deleteOrder st oid rr).resp = ⟨200, none⟩ ∧
      (deleteOrder st oid rr).refundCallMade = true ∧
      (deleteOrder st oid rr).store.lookup oid = none ∧
      deleteOrder st oid rr = deleteOrder st oid rr' := by
  intro rr rr'
  have hmem : o ∈ st.rows := List.mem_of_find?_eq_some hf
  have hsome := (hwf.2.2.2 o hmem hp).1
  rw [deleteOrder_found st oid o rr hf, deleteOrder_found st oid o rr' hf]
  refine ⟨rfl, ?_, ?_, rfl⟩
  · simp [hp, hsome]
  · exact find?_id_filter_self _ _

/-- Witness for C8: deleting the concrete paid order with the refund
dependency down still answers 200. -/
theorem cancel_paid_ignores_refund_failure_witness :
    (deleteOrder paidStore 1 .connRefused).resp = ⟨200, none⟩ :=
  (cancel_paid_ignores_refund_failure paidStore 1 paidRow wf_paidStore
    (by decide) (by decide) .connRefused (.success ())).1

/-- C9 counterexample: when the SELECT 1 database probe of the order
service fails, GET /health answers 500 — not 200 and not 503 as the
claim states — with the structured error document. -/
theorem health_db_failure_gives_500 :
    (orderHealth ⟨false, true, true, true, 0⟩).code = 500 ∧
    (orderHealth ⟨false, true, true, true, 0⟩).status = "error" ∧
    Decidable.decide ((orderHealth ⟨false, true, true, true, 0⟩).code = 200 ∨
      (orderHealth ⟨false, true, true, true, 0⟩).code = 503) = false := by
  decide

/-- C9 amended: GET /health of the order service always answers 200 or
500 — never 503 and never an unhandled throw — and whenever the local
database probe fails it answers 500 with the structured
status error / Database connection failed document. -/
theorem health_codes_200_or_500 (inp : OrderHealthInput) :
    ((orderHealth inp).code = 200 ∨ (orderHealth inp).code = 500) ∧
    (inp.dbSelect1Ok = false →
      (orderHealth inp).code = 500 ∧ (orderHealth inp).status = "error" ∧
      (orderHealth inp).error = some "Database connection failed") := by
  rcases inp with ⟨db1, u, p, dbc, n⟩
  cases db1 <;> cases dbc <;> simp [orderHealth]

/-- Witness for C9 amended: the database-failure document at a concrete
input. -/
theorem health_codes_200_or_500_witness :
    (orderHealth ⟨false, true, true, true, 0⟩).code = 500 ∧
    (orderHealth ⟨false, true, true, true, 0⟩).status = "error" ∧
    (orderHealth ⟨false, true, true, true, 0⟩).error =
      some "Database connection failed" :=
  (health_codes_200_or_500 ⟨false, true, true, true, 0⟩).2 rfl

/-- C10: POST /orders and POST /pay test required fields with JavaScript
truthiness, so a present-but-zero userId (orders) or amount (pay) is
handled exactly like an absent field: the very same 400
missing-required-fields response, no outbound call, no store write. -/
theorem falsy_zero_fields_treated_as_missing (st : OrderStore)
    (p : Option String) (a uo : Option Int) (ur : DepResult UserData)
    (ps : PayState) (o u : Option Int) (sf : Bool) (tid : String) :
    createOrder st ⟨some 0, p, a⟩ ur = createOrder st ⟨none, p, a⟩ ur ∧
    (createOrder st ⟨some 0, p, a⟩ ur).resp =
      ⟨400, some "Missing required fields: userId, product, and amount are required"⟩ ∧
    (createOrder st ⟨some 0, p, a⟩ ur).store = st ∧
    (createOrder st ⟨some 0, p, a⟩ ur).userCallMade = false ∧
    createOrder st ⟨uo, p, some 0⟩ ur = createOrder st ⟨uo, p, none⟩ ur ∧
    payEndpoint ps ⟨o, some 0, u⟩ sf tid = payEndpoint ps ⟨o, none, u⟩ sf tid ∧
    (payEndpoint ps ⟨o, some 0, u⟩ sf tid).resp =
      ⟨400, some "Missing required fields: orderId and amount are required"⟩ ∧
    (payEndpoint ps ⟨o, some 0, u⟩ sf tid).state = ps ∧
    (payEndpoint ps ⟨o, some 0, u⟩ sf tid).userCallMade = false := by
  refine ⟨rfl, rfl, rfl, rfl, ?_, ?_, ?_, ?_, ?_⟩
  · simp [createOrder, jsFalsyQ]
  · simp [payEndpoint, jsFalsyQ]
  · simp [payEndpoint, jsFalsyQ]
  · simp [payEndpoint, jsFalsyQ]
  · simp [payEndpoint, jsFalsyQ]
